import Mathlib

/-!
Shallow embedding of the Event Relay Controller of hot-diagnose
(src/server/templates/control.js, and the older variant src/unnamed/part_000).

The JavaScript is a single `Controller` class plus a `window.onload` hook.
All of its state and effects are gathered into one record `ControllerState`:
the event queue (`this.queue`), the last-assigned interval handle
(`this.timmer`), the set of interval timers currently running in the browser,
the commands sent on the websocket, the open/attached status of the channel,
the disabled flags and label of the two page buttons, and the list of
presentation side effects performed so far.  Every method of the class
becomes a function on this record; browser callbacks (message arrival,
timer ticks, button clicks) become an explicit event step function.
-/

/-- A diagnostic event as consumed by the front end.  The only field the
core reads is the CSS class name of the target line: `data.classname`
(control.js line 36, part_000 line 22). -/
structure Event where
  classname : String
  deriving DecidableEq

/-- A JavaScript exception relevant to this code: `TypeError` from reading a
property of `undefined`, and the `SyntaxError` thrown by `JSON.parse` on a
malformed payload (modelled as `parseError`). -/
inductive JsError
  | typeError
  | parseError
  deriving DecidableEq

/-- An inbound websocket message's payload: either it parses (by `JSON.parse`)
into a structured event, or it is malformed and the parse throws. -/
inductive Payload
  | wellFormed (e : Event)
  | malformed
  deriving DecidableEq

/-- Outcome of the websocket connection attempt made by the constructor:
the connection either opens or fails.  Per the WHATWG websocket contract the
constructor itself returns immediately either way; the outcome is only
delivered later through asynchronous events. -/
inductive ConnectOutcome
  | opens
  | fails
  deriving DecidableEq

/-- The whole observable state of one Controller together with the browser
resources it touches (timers, websocket, the two buttons, the presentation
layer). -/
structure ControllerState where
  /-- `this.queue` — the event buffer (control.js line 3). -/
  queue : List Event
  /-- `this.timmer` — the interval handle stored by the last `do_start`
  (control.js line 39); `none` models `undefined` before any start. -/
  timmer : Option Nat
  /-- The interval timers currently running in the browser, as pairs of
  (handle, interval in ms).  `setInterval` adds one, `clearInterval`
  removes one. -/
  activeTimers : List (Nat × Nat)
  /-- Next fresh interval handle the browser will hand out. -/
  nextTimerId : Nat
  /-- Commands transmitted on the websocket, in order (`this.ws.send`). -/
  sent : List String
  /-- Whether the websocket connection is open. -/
  wsOpen : Bool
  /-- Whether the `onmessage` handler installed by the constructor
  (control.js lines 5-7) is still attached; nothing in the code ever
  detaches it. -/
  onmessageAttached : Bool
  /-- `disabled` attribute of the `#stop` button. -/
  stopDisabled : Bool
  /-- `disabled` attribute of the `#control` (start/pause toggle) button. -/
  controlDisabled : Bool
  /-- `innerHTML` label of the `#control` button. -/
  controlLabel : String
  /-- Presentation side effects performed so far: the class names passed to
  `_blink_line`, in order. -/
  highlights : List Event
  deriving DecidableEq

/-- The body of `ws.onmessage` (control.js lines 5-7):
`window.ctrl.queue.push(JSON.parse(message.data))`.  A well-formed payload
is appended to the queue; on a malformed payload `JSON.parse` throws a
`SyntaxError` which, since there is no try/catch, escapes the handler —
modelled by the `Except.error` result (the queue is untouched, as `push`
is never reached). -/
def ws_onmessage (s : ControllerState) (p : Payload) : Except JsError ControllerState :=
  match p with
  | Payload.wellFormed e => Except.ok { s with queue := s.queue ++ [e] }
  | Payload.malformed => Except.error JsError.parseError

/-- Browser-level delivery of one inbound message: the `onmessage` handler
runs if attached; an exception escaping an event handler is reported by the
browser but does not close the websocket, so the state is simply left as the
handler left it before throwing. -/
def deliverMessage (s : ControllerState) (p : Payload) : ControllerState :=
  if s.onmessageAttached then
    match ws_onmessage s p with
    | Except.ok s1 => s1
    | Except.error _ => s
  else s

/-- `Array.prototype.shift` as used by `peak` in control.js line 15: removes
and returns the FIRST element; on an empty array it returns `undefined`
(here `none`) and leaves the array empty. -/
def peakList (q : List Event) : Option Event × List Event :=
  match q with
  | [] => (none, [])
  | e :: rest => (some e, rest)

/-- `peak()` of control.js (lines 14-16): `return this.queue.shift()`. -/
def peak (s : ControllerState) : Option Event × ControllerState :=
  ((peakList s.queue).1, { s with queue := (peakList s.queue).2 })

/-- `Array.prototype.pop` as used by `peak` in the part_000 variant
(line 15 there): removes and returns the LAST element; `none` on empty. -/
def peakPop (q : List Event) : Option Event × List Event :=
  (q.getLast?, q.dropLast)

/-- `_blink_line(classname)` (control.js lines 18-25): scrolls to the target
element and animates it.  Its only footprint in the model is the
presentation side effect, recorded in order. -/
def blink_line (s : ControllerState) (e : Event) : ControllerState :=
  { s with highlights := s.highlights ++ [e] }

/-- `_enable_stop_button()` (control.js lines 27-30): removes the `disabled`
attribute from the `#stop` button. -/
def enable_stop_button (s : ControllerState) : ControllerState :=
  { s with stopDisabled := false }

/-- `send(message)` (control.js lines 10-12): transmits one command on the
websocket. -/
def send (s : ControllerState) (m : String) : ControllerState :=
  { s with sent := s.sent ++ [m] }

/-- The `render` closure created by `do_start` (control.js lines 34-37):
`let data = this.peak(); window.ctrl._blink_line(data.classname)`.
When the queue is empty, `peak()` returns `undefined` and the property read
`data.classname` throws a `TypeError`; otherwise the dequeued event is
blinked.  Returns the state after the mutations that happened before any
throw, together with the exception if one was raised. -/
def render (s : ControllerState) : ControllerState × Option JsError :=
  match (peak s).1 with
  | none => ((peak s).2, some JsError.typeError)
  | some e => (blink_line (peak s).2 e, none)

/-- One firing of the browser interval timer with handle `t`: the callback
(`render`) runs only if that interval is still active.  An exception thrown
by the callback is reported but neither cancels the interval nor undoes the
mutations made before the throw. -/
def tick (s : ControllerState) (t : Nat) : ControllerState :=
  if s.activeTimers.any (fun p => p.fst == t) then (render s).1 else s

/-- `clearInterval(h)` for a stored handle: clearing `undefined` is a no-op;
clearing a handle removes that interval from the running set (a no-op if it
is not running). -/
def clearIntervalOn (s : ControllerState) (h : Option Nat) : ControllerState :=
  match h with
  | none => s
  | some t => { s with activeTimers := s.activeTimers.filter (fun p => p.fst != t) }

/-- `do_start()` (control.js lines 32-40): enables the stop button, sends
the `"start"` command, and starts a fresh 500 ms interval running `render`,
overwriting `this.timmer` with the new handle.  Note that it does NOT clear
any previously running interval. -/
def do_start (s : ControllerState) : ControllerState :=
  let s1 := send (enable_stop_button s) "start"
  { s1 with timmer := some s1.nextTimerId,
            activeTimers := s1.activeTimers ++ [(s1.nextTimerId, 500)],
            nextTimerId := s1.nextTimerId + 1 }

/-- `do_pause()` (control.js lines 42-44): `clearInterval(this.timmer)`.
The stale handle remains stored. -/
def do_pause (s : ControllerState) : ControllerState :=
  clearIntervalOn s s.timmer

/-- `do_stop()` (control.js lines 46-51): clears the stored interval, sends
the `"stop"` command, and disables both buttons.  It does not close the
websocket, does not detach `onmessage`, and does not clear the queue. -/
def do_stop (s : ControllerState) : ControllerState :=
  let s1 := send (clearIntervalOn s s.timmer) "stop"
  { s1 with controlDisabled := true, stopDisabled := true }

/-- The state built by `new Controller(hostname, port)` (control.js
lines 2-8): an empty queue and a websocket with the `onmessage` handler
attached.  Whether the connection opens is recorded but has no effect on
construction.  The page template initializes the `#stop` button disabled
(implied by `_enable_stop_button`, which exists to remove that attribute). -/
def initState (o : ConnectOutcome) : ControllerState :=
  { queue := []
    timmer := none
    activeTimers := []
    nextTimerId := 0
    sent := []
    wsOpen := match o with | ConnectOutcome.opens => true | ConnectOutcome.fails => false
    onmessageAttached := true
    stopDisabled := true
    controlDisabled := false
    controlLabel := ""
    highlights := [] }

/-- The constructor call itself.  Per the WHATWG websocket contract,
`new WebSocket(url)` returns immediately with the connection being attempted
in the background; a connection failure is delivered later through
asynchronous error/close events, never as a constructor exception (only a
malformed URL throws, and the URL built on line 4 is well-formed).  The
constructor body (control.js lines 2-8) contains no other throwing
operation, so construction always succeeds. -/
def Controller.new (o : ConnectOutcome) : Except JsError ControllerState :=
  Except.ok (initState o)

/-- The state after `window.onload` (control.js lines 54-69): the controller
is constructed with an open connection and the `#control` button's label is
set to `START`. -/
def onloadState : ControllerState :=
  { initState ConnectOutcome.opens with controlLabel := "START" }

/-- External stimuli the page can receive after load: a click on the
`#control` toggle, a click on the `#stop` button, arrival of a websocket
message, and a firing of interval timer `t`. -/
inductive UiEvent
  | controlClick
  | stopClick
  | message (p : Payload)
  | timerTick (t : Nat)

/-- One stimulus step.  A disabled button produces no click event.  The
`#control` click handler (control.js lines 58-66) toggles the label and
calls `do_start` or `do_pause`; the `#stop` click handler (line 68) calls
`do_stop`. -/
def step (s : ControllerState) : UiEvent → ControllerState
  | UiEvent.controlClick =>
      if s.controlDisabled then s
      else if s.controlLabel = "START" then do_start { s with controlLabel := "PAUSE" }
      else do_pause { s with controlLabel := "START" }
  | UiEvent.stopClick => if s.stopDisabled then s else do_stop s
  | UiEvent.message p => deliverMessage s p
  | UiEvent.timerTick t => tick s t

/-- Run a sequence of stimuli from a state. -/
def runEvents (s : ControllerState) (es : List UiEvent) : ControllerState :=
  es.foldl step s

/-- An interleaving of message-handler pushes and `peak()` calls, for the
FIFO analysis of the event buffer. -/
inductive MPOp
  | msg (e : Event)
  | peakCall

/-- Run an interleaving of message arrivals and `peak()` calls, collecting
in order the events that `peak()` returned. -/
def runMP : ControllerState → List Event → List MPOp → ControllerState × List Event
  | s, outs, [] => (s, outs)
  | s, outs, MPOp.msg e :: rest => runMP (deliverMessage s (Payload.wellFormed e)) outs rest
  | s, outs, MPOp.peakCall :: rest =>
      runMP (peak s).2
        (outs ++ (match (peak s).1 with | some e => [e] | none => [])) rest

/-- The events pushed by an interleaving, in arrival order. -/
def msgsOf (ops : List MPOp) : List Event :=
  ops.filterMap (fun op => match op with | MPOp.msg e => some e | MPOp.peakCall => none)

/-- Filtering a list twice with the same predicate equals filtering once. -/
lemma filter_idem (l : List (Nat × Nat)) (q : Nat × Nat → Bool) :
    (l.filter q).filter q = l.filter q := by
  induction l with
  | nil => rfl
  | cons a rest ih =>
      by_cases h : q a = true
      · simp [List.filter_cons, h, ih]
      · simp [List.filter_cons, h, ih]

/-- Reachability invariant of the page after load: at most one interval is
ever running, and when one is running it is exactly the one whose handle is
stored in `timmer`; moreover the toggle shows `START` only while no
interval is running. -/
def ControllerInv (s : ControllerState) : Prop :=
  (s.activeTimers = [] ∨
    (∃ t iv, s.activeTimers = [(t, iv)] ∧ s.timmer = some t)) ∧
  (s.controlLabel = "START" → s.activeTimers = [])

/-- Under the one-timer invariant, clearing the stored handle leaves no
running interval. -/
lemma activeTimers_clear_stored (s : ControllerState)
    (h : s.activeTimers = [] ∨
      (∃ t iv, s.activeTimers = [(t, iv)] ∧ s.timmer = some t)) :
    (clearIntervalOn s s.timmer).activeTimers = [] := by
  rcases h with h | ⟨t, iv, ht, hs⟩
  · cases hm : s.timmer with
    | none => simp [clearIntervalOn, h]
    | some t => simp [clearIntervalOn, h]
  · simp [clearIntervalOn, hs, ht]

/-- Message delivery touches only the queue. -/
lemma deliverMessage_frame (s : ControllerState) (p : Payload) :
    (deliverMessage s p).activeTimers = s.activeTimers ∧
    (deliverMessage s p).timmer = s.timmer ∧
    (deliverMessage s p).controlLabel = s.controlLabel := by
  cases p <;> by_cases h : s.onmessageAttached = true <;>
    simp [deliverMessage, ws_onmessage, h]

/-- A timer tick touches only the queue and the presentation layer. -/
lemma tick_frame (s : ControllerState) (t : Nat) :
    (tick s t).activeTimers = s.activeTimers ∧
    (tick s t).timmer = s.timmer ∧
    (tick s t).controlLabel = s.controlLabel := by
  by_cases h : s.activeTimers.any (fun p => p.fst == t) = true
  · cases hq : s.queue <;> simp [tick, h, render, peak, peakList, blink_line, hq]
  · simp [tick, h]

/-- The invariant only mentions `activeTimers`, `timmer` and `controlLabel`,
so it transfers along any step that preserves those fields. -/
lemma controllerInv_congr (s s1 : ControllerState)
    (ha : s1.activeTimers = s.activeTimers) (ht : s1.timmer = s.timmer)
    (hl : s1.controlLabel = s.controlLabel) (h : ControllerInv s) :
    ControllerInv s1 := by
  unfold ControllerInv at h ⊢
  rw [ha, ht, hl]
  exact h

/-- Every external stimulus preserves the one-timer invariant. -/
lemma controllerInv_step (s : ControllerState) (e : UiEvent)
    (h : ControllerInv s) : ControllerInv (step s e) := by
  obtain ⟨h1, h2⟩ := h
  cases e with
  | controlClick =>
      by_cases hd : s.controlDisabled = true
      · simpa [step, hd] using ⟨h1, h2⟩
      · by_cases hl : s.controlLabel = "START"
        · have hempty : s.activeTimers = [] := h2 hl
          simp only [step, hd, hl, if_false, if_true, Bool.false_eq_true]
          constructor
          · right
            exact ⟨s.nextTimerId, 500,
              by simp [do_start, send, enable_stop_button, hempty],
              by simp [do_start, send, enable_stop_button]⟩
          · intro hcon
            simp [do_start, send, enable_stop_button] at hcon
        · simp only [step, hd, hl, if_false, Bool.false_eq_true]
          constructor
          · left
            exact activeTimers_clear_stored _ (by simpa using h1)
          · intro _
            exact activeTimers_clear_stored _ (by simpa using h1)
  | stopClick =>
      by_cases hd : s.stopDisabled = true
      · simpa [step, hd] using ⟨h1, h2⟩
      · have hempty : (clearIntervalOn s s.timmer).activeTimers = [] :=
          activeTimers_clear_stored s h1
        simp only [step, hd, if_false, Bool.false_eq_true]
        constructor
        · left
          simpa [do_stop, send] using hempty
        · intro _
          simpa [do_stop, send] using hempty
  | message p =>
      obtain ⟨ha, ht, hl⟩ := deliverMessage_frame s p
      exact controllerInv_congr s _ ha ht hl ⟨h1, h2⟩
  | timerTick t =>
      obtain ⟨ha, ht, hl⟩ := tick_frame s t
      exact controllerInv_congr s _ ha ht hl ⟨h1, h2⟩

/-- The invariant holds along every run. -/
lemma controllerInv_runEvents (es : List UiEvent) :
    ∀ s, ControllerInv s → ControllerInv (runEvents s es) := by
  induction es with
  | nil => intro s h; exact h
  | cons e rest ih =>
      intro s h
      exact ih (step s e) (controllerInv_step s e h)

/-- The freshly loaded page satisfies the invariant. -/
lemma controllerInv_onload : ControllerInv onloadState :=
  ⟨Or.inl rfl, fun _ => rfl⟩

/-- Every state the page can reach after load satisfies the invariant. -/
lemma controllerInv_reachable (es : List UiEvent) :
    ControllerInv (runEvents onloadState es) :=
  controllerInv_runEvents es onloadState controllerInv_onload

/-- Pushing and peaking preserves the FIFO bookkeeping identity: the events
already returned, followed by the events still queued, equal the initial
contents followed by every pushed event, in arrival order. -/
lemma runMP_fifo_aux (ops : List MPOp) :
    ∀ s outs, s.onmessageAttached = true →
      (runMP s outs ops).2 ++ ((runMP s outs ops).1).queue
        = outs ++ (s.queue ++ msgsOf ops) := by
  induction ops with
  | nil =>
      intro s outs _
      simp [runMP, msgsOf]
  | cons op rest ih =>
      cases op with
      | msg e =>
          intro s outs h
          have hd : deliverMessage s (Payload.wellFormed e)
              = { s with queue := s.queue ++ [e] } := by
            simp [deliverMessage, ws_onmessage, h]
          simp only [runMP, hd]
          rw [ih { s with queue := s.queue ++ [e] } outs h]
          simp [msgsOf]
      | peakCall =>
          intro s outs h
          cases hq : s.queue with
          | nil =>
              simp only [runMP, peak, peakList, hq]
              rw [ih { s with queue := [] } (outs ++ []) h]
              simp [msgsOf, hq]
          | cons e q =>
              simp only [runMP, peak, peakList, hq]
              rw [ih { s with queue := q } (outs ++ [e]) h]
              simp [msgsOf, hq]

/-- C1 (amended part): in control.js, for every interleaving of
message-handler pushes and `peak()` calls, the events returned by `peak()`
followed by the events still queued are exactly the pushed events in
arrival order — so dequeuing is FIFO, each `peak()` removing the earliest
not-yet-consumed event. -/
theorem event_buffer_fifo (ops : List MPOp) :
    (runMP onloadState [] ops).2 ++ ((runMP onloadState [] ops).1).queue
      = msgsOf ops := by
  have h := runMP_fifo_aux ops onloadState [] rfl
  simpa [onloadState, initState] using h

/-- C1 (counterexample): in the part_000 variant, after the handler has
pushed the events with class names `a` then `b`, `peak()` (which is
`queue.pop()`) returns the event `b` — the MOST recently enqueued one, not
the earliest — leaving `a` queued: LIFO, not FIFO. -/
theorem variant_peak_returns_most_recent :
    peakPop ([] ++ [Event.mk "a"] ++ [Event.mk "b"])
      = (some (Event.mk "b"), [Event.mk "a"]) ∧
    Event.mk "b" ≠ Event.mk "a" := by
  constructor
  · rfl
  · decide

/-- C2: on a running controller whose event buffer is empty (the state
right after `do_start` on the freshly loaded page, where one 500 ms
interval is active), the tick body `render` raises a `TypeError` — `peak()`
returns `undefined` and `data.classname` is read from it — and performs no
presentation side effect. -/
theorem empty_buffer_tick_raises_type_error :
    (render (do_start onloadState)).2 = some JsError.typeError ∧
    ((render (do_start onloadState)).1).highlights = [] ∧
    ((do_start onloadState).activeTimers).length = 1 :=
  ⟨rfl, rfl, rfl⟩

/-- C3 (counterexample): starting the controller and then calling `do_stop`
twice sends the `"stop"` command twice — once per call — not once. -/
theorem double_stop_sends_stop_twice :
    (do_stop (do_stop (do_start onloadState))).sent = ["start", "stop", "stop"] ∧
    ((do_stop (do_stop (do_start onloadState))).sent.count "stop") = 2 := by
  constructor
  · rfl
  · rfl

/-- C3 (amended): a second `do_stop` call repeats the `"stop"` send but has
no other effect — the resulting state differs from the single-call state
only by the extra `"stop"` in the send log — and through the UI a second
stop is impossible, the first call having disabled the `#stop` button. -/
theorem second_stop_only_resends (s : ControllerState) :
    do_stop (do_stop s) = { do_stop s with sent := (do_stop s).sent ++ ["stop"] } ∧
    step (do_stop s) UiEvent.stopClick = do_stop s := by
  constructor
  · cases ht : s.timmer with
    | none => simp [do_stop, clearIntervalOn, send, ht]
    | some t => simp [do_stop, clearIntervalOn, send, ht, filter_idem]
  · simp [step, do_stop, send]

/-- C4 (counterexample): calling `do_start` on the stopped controller
(start, then stop, on the freshly loaded page) is not a no-op: it sends a
third command `"start"`, activates a fresh 500 ms interval, and re-enables
the `#stop` button. -/
theorem do_start_after_stop_has_effects :
    (do_start (do_stop (do_start onloadState))).sent = ["start", "stop", "start"] ∧
    (do_start (do_stop (do_start onloadState))).activeTimers = [(1, 500)] ∧
    (do_start (do_stop (do_start onloadState))).stopDisabled = false :=
  ⟨rfl, rfl, rfl⟩

/-- C4 (amended): `do_stop` disables both page buttons, so after it no
lifecycle operation can be triggered through the control surface — clicks
on either button are no-ops; the stopped status is enforced only by the
disabled buttons, not by any controller state. -/
theorem stop_disables_control_surface (s : ControllerState) :
    (do_stop s).controlDisabled = true ∧ (do_stop s).stopDisabled = true ∧
    step (do_stop s) UiEvent.controlClick = do_stop s ∧
    step (do_stop s) UiEvent.stopClick = do_stop s :=
  ⟨rfl, rfl, rfl, rfl⟩

/-- C5 (counterexample): on the loaded page, clicking the toggle three
times — start, pause, resume — leaves a send log of two `"start"`
commands: the resume click (the third) did send a command over the
channel. -/
theorem resume_click_sends_second_start :
    (runEvents onloadState
        [UiEvent.controlClick, UiEvent.controlClick, UiEvent.controlClick]).sent
      = ["start", "start"] :=
  rfl

/-- C5 (amended): a resume click (toggle showing `START`, button enabled)
invokes `do_start`: it activates a fresh timer with the same fixed 500 ms
interval as every start and leaves the queue untouched, but also sends a
`"start"` command and re-enables the `#stop` button. -/
theorem resume_restarts_timer_and_sends_start (s : ControllerState)
    (hd : s.controlDisabled = false) (hl : s.controlLabel = "START") :
    (step s UiEvent.controlClick).sent = s.sent ++ ["start"] ∧
    (step s UiEvent.controlClick).activeTimers
      = s.activeTimers ++ [(s.nextTimerId, 500)] ∧
    (step s UiEvent.controlClick).queue = s.queue ∧
    (step s UiEvent.controlClick).stopDisabled = false := by
  simp [step, hd, hl, do_start, send, enable_stop_button]

/-- C5 (witness): the amended statement holds at the concrete paused state
reached by clicking the toggle twice (start then pause) on the loaded
page. -/
theorem resume_restarts_timer_and_sends_start_witness :
    (step (runEvents onloadState [UiEvent.controlClick, UiEvent.controlClick])
        UiEvent.controlClick).sent
      = (runEvents onloadState [UiEvent.controlClick, UiEvent.controlClick]).sent
          ++ ["start"] ∧
    (step (runEvents onloadState [UiEvent.controlClick, UiEvent.controlClick])
        UiEvent.controlClick).activeTimers
      = (runEvents onloadState [UiEvent.controlClick, UiEvent.controlClick]).activeTimers
          ++ [((runEvents onloadState [UiEvent.controlClick, UiEvent.controlClick]).nextTimerId,
               500)] ∧
    (step (runEvents onloadState [UiEvent.controlClick, UiEvent.controlClick])
        UiEvent.controlClick).queue
      = (runEvents onloadState [UiEvent.controlClick, UiEvent.controlClick]).queue ∧
    (step (runEvents onloadState [UiEvent.controlClick, UiEvent.controlClick])
        UiEvent.controlClick).stopDisabled = false :=
  resume_restarts_timer_and_sends_start
    (runEvents onloadState [UiEvent.controlClick, UiEvent.controlClick]) rfl rfl

/-- C6 (counterexample): invoking `do_start` while a timer is already
active (here, on the running state reached by one start) does not
deactivate the prior interval: afterwards both the old interval 0 and the
new interval 1 are running, and the stored handle names only the new one,
so the old interval can no longer be cleared by the controller. -/
theorem do_start_while_active_leaves_two_timers :
    (do_start (do_start onloadState)).activeTimers = [(0, 500), (1, 500)] ∧
    (do_start (do_start onloadState)).timmer = some 1 :=
  ⟨rfl, rfl⟩

/-- C6 (amended): along the control surface the situation never arises —
in every state the page can reach after load, at most one interval timer
is active. -/
theorem at_most_one_timer_reachable (es : List UiEvent) :
    ((runEvents onloadState es).activeTimers).length ≤ 1 := by
  rcases (controllerInv_reachable es).1 with h | ⟨t, iv, h, _⟩ <;> simp [h]

/-- C7 (counterexample): on a malformed payload the handler body raises:
`JSON.parse` throws and, with no try/catch around it, the error escapes
the `onmessage` handler (shown here on the freshly loaded page). -/
theorem malformed_message_error_escapes_handler :
    ws_onmessage onloadState Payload.malformed = Except.error JsError.parseError :=
  rfl

/-- C7 (amended): a malformed message between two well-formed ones affects
only itself: it is never enqueued (the parse throws before the push), the
escaping error is absorbed by the browser so the channel stays open with
the handler still attached, and both well-formed neighbours are enqueued
in order. -/
theorem malformed_message_dropped_channel_stays_open
    (s : ControllerState) (a b : Event) (h : s.onmessageAttached = true) :
    (deliverMessage (deliverMessage (deliverMessage s (Payload.wellFormed a))
        Payload.malformed) (Payload.wellFormed b)).queue = s.queue ++ [a, b] ∧
    (deliverMessage (deliverMessage (deliverMessage s (Payload.wellFormed a))
        Payload.malformed) (Payload.wellFormed b)).wsOpen = s.wsOpen ∧
    (deliverMessage (deliverMessage (deliverMessage s (Payload.wellFormed a))
        Payload.malformed) (Payload.wellFormed b)).onmessageAttached = true := by
  simp [deliverMessage, ws_onmessage, h]

/-- C7 (witness): the amended statement holds on the freshly loaded page
for the concrete events `a` and `b`. -/
theorem malformed_message_dropped_channel_stays_open_witness :
    (deliverMessage (deliverMessage (deliverMessage onloadState
        (Payload.wellFormed (Event.mk "a"))) Payload.malformed)
        (Payload.wellFormed (Event.mk "b"))).queue
      = onloadState.queue ++ [Event.mk "a", Event.mk "b"] ∧
    (deliverMessage (deliverMessage (deliverMessage onloadState
        (Payload.wellFormed (Event.mk "a"))) Payload.malformed)
        (Payload.wellFormed (Event.mk "b"))).wsOpen = onloadState.wsOpen ∧
    (deliverMessage (deliverMessage (deliverMessage onloadState
        (Payload.wellFormed (Event.mk "a"))) Payload.malformed)
        (Payload.wellFormed (Event.mk "b"))).onmessageAttached = true :=
  malformed_message_dropped_channel_stays_open onloadState
    (Event.mk "a") (Event.mk "b") rfl

/-- C8: from every state the page can reach after load, `do_pause` leaves
no interval running — the cancellation is part of the call itself — so a
tick of any timer handle simulated right after `do_pause` returns leaves
the state exactly unchanged: no dequeue, no presentation side effect. -/
theorem pause_cancels_timer_and_tick_is_noop (es : List UiEvent) (t : Nat) :
    (do_pause (runEvents onloadState es)).activeTimers = [] ∧
    tick (do_pause (runEvents onloadState es)) t
      = do_pause (runEvents onloadState es) := by
  have hempty : (do_pause (runEvents onloadState es)).activeTimers = [] :=
    activeTimers_clear_stored _ (controllerInv_reachable es).1
  exact ⟨hempty, by simp [tick, hempty]⟩

/-- C9 (counterexample): constructing the controller over a connection that
fails to open still succeeds — the constructor returns the controller, no
error — with the channel simply not open. -/
theorem failed_connection_construction_still_succeeds :
    Controller.new ConnectOutcome.fails
      = Except.ok (initState ConnectOutcome.fails) ∧
    (initState ConnectOutcome.fails).wsOpen = false :=
  ⟨rfl, rfl⟩

/-- C9 (amended): construction never fails, whatever the connection
outcome: it always yields a controller with an empty queue and the message
handler attached, and the channel is open exactly when the connection
opened — a connection failure is observable only after construction,
through the channel state, never as a construction error. -/
theorem construction_never_fails (o : ConnectOutcome) :
    Controller.new o = Except.ok (initState o) ∧
    (initState o).queue = [] ∧
    (initState o).onmessageAttached = true ∧
    ((initState o).wsOpen = true ↔ o = ConnectOutcome.opens) := by
  refine ⟨rfl, rfl, rfl, ?_⟩
  cases o <;> simp [initState]

/-- C10: `do_stop` leaves the channel open, the `onmessage` handler
attached, and the event buffer exactly as it was; consequently a
well-formed message arriving after the stop is still appended to the
retained buffer. -/
theorem stop_keeps_channel_handler_and_buffer
    (s : ControllerState) (e : Event) (h : s.onmessageAttached = true) :
    (do_stop s).wsOpen = s.wsOpen ∧
    (do_stop s).onmessageAttached = true ∧
    (do_stop s).queue = s.queue ∧
    (deliverMessage (do_stop s) (Payload.wellFormed e)).queue = s.queue ++ [e] := by
  cases ht : s.timmer <;>
    simp [do_stop, clearIntervalOn, send, deliverMessage, ws_onmessage, h, ht]

/-- C10 (witness): the statement holds on the concrete running state
reached by one start, with an event of class name `a` arriving after the
stop. -/
theorem stop_keeps_channel_handler_and_buffer_witness :
    (do_stop (do_start onloadState)).wsOpen = (do_start onloadState).wsOpen ∧
    (do_stop (do_start onloadState)).onmessageAttached = true ∧
    (do_stop (do_start onloadState)).queue = (do_start onloadState).queue ∧
    (deliverMessage (do_stop (do_start onloadState))
        (Payload.wellFormed (Event.mk "a"))).queue
      = (do_start onloadState).queue ++ [Event.mk "a"] :=
  stop_keeps_channel_handler_and_buffer (do_start onloadState) (Event.mk "a") rfl
